import Mathlib

/-
Shallow embedding of nav2_smac_planner/src/smac_planner_lattice.cpp
(class SmacPlannerLattice).  Machine doubles and floats are modelled as
exact rationals; 32-bit int is modelled as Int together with the explicit
sentinel intMax = 2^31 - 1 used by the source through
std::numeric_limits<int>::max().  Components of the repository that are
not part of src/ (the lattice-file loader, the A* engine, the smoother,
and the costmap conversions) enter the model as explicit oracle inputs,
modelled from the spec where their behavior matters.
-/

namespace SmacLattice

/-- The value std::numeric_limits<int>::max() for 32-bit int, used by the
source as the sentinel meaning an effectively unbounded iteration budget. -/
def intMax : Int := 2147483647

/-- Truncation of a rational toward zero, the semantics of a C++
static_cast<int> applied to a non-integral floating value. -/
def ratTrunc (q : ℚ) : Int := if 0 ≤ q then ⌊q⌋ else ⌈q⌉

/-- Metadata of a lattice file as returned by
LatticeMotionTable::getLatticeMetadata (that function lives outside this
repository slice; only the two fields read by smac_planner_lattice.cpp are
modelled). -/
structure LatticeMetadata where
  min_turning_radius : ℚ
  number_of_headings : Nat
deriving DecidableEq, Repr, Inhabited

/-- The motion model selected by SmacPlannerLattice::configure, always
MotionModel::STATE_LATTICE (line 109 of the source). -/
inductive MotionModel where
  | stateLattice
deriving DecidableEq, Repr, Inhabited

/-- The SearchInfo aggregate filled by configure and mutated by
dynamicParametersCallback.  Field analytic_expansion_ratio_val stands for
the source field analytic_expansion_ratio. -/
structure SearchInfo where
  lattice_filepath : String
  cache_obstacle_heuristic : Bool
  reverse_penalty : ℚ
  change_penalty : ℚ
  non_straight_penalty : ℚ
  cost_penalty : ℚ
  analytic_expansion_ratio_val : ℚ
  allow_reverse_expansion : Bool
  minimum_turning_radius : ℚ
deriving DecidableEq, Repr, Inhabited

/-- Snapshot of the arguments with which the live AStarAlgorithm instance
was constructed and initialized (source lines 148-155 and 406-413); the
engine itself is outside this repository slice, so the snapshot is what
the orchestration layer hands it. -/
structure AStarConfig where
  motion_model : MotionModel
  search_info : SearchInfo
  allow_unknown : Bool
  max_iterations : Int
  max_on_approach_iterations : Int
  max_planning_time : ℚ
  lookup_table_dim : ℚ
  dim_3_size : Nat
deriving DecidableEq, Repr, Inhabited

/-- Snapshot of the live Smoother instance: the only datum of it set by
this file is the minimum turning radius passed to initialize
(source lines 160-161 and 400-401). -/
structure SmootherState where
  min_turning_radius : ℚ
deriving DecidableEq, Repr, Inhabited

/-- The member state of SmacPlannerLattice that the embedded operations
read and write. -/
structure PlannerState where
  name : String
  allow_unknown : Bool
  max_iterations : Int
  search_info : SearchInfo
  max_planning_time : ℚ
  lookup_table_size : ℚ
  metadata : LatticeMetadata
  a_star : AStarConfig
  smoother : SmootherState
deriving DecidableEq, Repr, Inhabited

/-- Modelled from the spec: the environment of the plugin.  load stands
for LatticeMotionTable::getLatticeMetadata, which is not part of this
repository slice; per the spec a missing or malformed lattice file is a
load-time error, modelled as none (the C++ surface throws, and no caller
in this file catches).  resolution is the value of
costmap->getResolution(). -/
structure Env where
  load : String → Option LatticeMetadata
  resolution : ℚ

/-- The lookup-table dimension computation of configure lines 118-132 and
dynamicParametersCallback lines 379-393: float division of the configured
table size by the resolution, truncation to a whole number, then an
increment by one when that whole number is even.  The even test d % 2 == 0
of C++ agrees with Int.emod here since both test divisibility by two. -/
def lookupTableDimInt (size res : ℚ) : Int :=
  if ratTrunc (size / res) % 2 = 0 then ratTrunc (size / res) + 1
  else ratTrunc (size / res)

/-- The float value carried by the source variable lookup_table_dim after
the whole-number and odd-number fixups: it is exactly the integer
lookupTableDimInt cast back to a float. -/
def lookupTableDim (size res : ℚ) : ℚ := (lookupTableDimInt size res : ℚ)

/-- The parameter values read by SmacPlannerLattice::configure
(lines 64-104).  Parameter transport and defaulting are external; the
struct holds the values the node returns. -/
structure ConfigureParams where
  allow_unknown : Bool
  max_iterations : Int
  lattice_filepath : String
  cache_obstacle_heuristic : Bool
  reverse_penalty : ℚ
  change_penalty : ℚ
  non_straight_penalty : ℚ
  cost_penalty : ℚ
  analytic_expansion_ratio_val : ℚ
  max_planning_time : ℚ
  lookup_table_size : ℚ
  allow_reverse_expansion : Bool
deriving DecidableEq, Repr, Inhabited

/-- SmacPlannerLattice::configure, lines 47-170.  Returns none when the
lattice metadata load fails (the exception escapes configure; nothing of
the built state survives).  On success: the search info is filled from the
parameters, minimum_turning_radius is set to the metadata radius divided
by the grid resolution (lines 106-108), a non-positive max_iterations is
replaced by intMax (lines 111-116), the lookup-table dimension is computed
and made odd (lines 118-132), and the A* snapshot and smoother snapshot
are built (lines 147-161). -/
def configure (env : Env) (name : String) (p : ConfigureParams) :
    Option PlannerState :=
  match env.load p.lattice_filepath with
  | none => none
  | some md =>
    let si : SearchInfo :=
      { lattice_filepath := p.lattice_filepath
        cache_obstacle_heuristic := p.cache_obstacle_heuristic
        reverse_penalty := p.reverse_penalty
        change_penalty := p.change_penalty
        non_straight_penalty := p.non_straight_penalty
        cost_penalty := p.cost_penalty
        analytic_expansion_ratio_val := p.analytic_expansion_ratio_val
        allow_reverse_expansion := p.allow_reverse_expansion
        minimum_turning_radius := md.min_turning_radius / env.resolution }
    let mi : Int := if p.max_iterations ≤ 0 then intMax else p.max_iterations
    let dim : ℚ := lookupTableDim p.lookup_table_size env.resolution
    some
      { name := name
        allow_unknown := p.allow_unknown
        max_iterations := mi
        search_info := si
        max_planning_time := p.max_planning_time
        lookup_table_size := p.lookup_table_size
        metadata := md
        a_star :=
          { motion_model := MotionModel.stateLattice
            search_info := si
            allow_unknown := p.allow_unknown
            max_iterations := mi
            max_on_approach_iterations := intMax
            max_planning_time := p.max_planning_time
            lookup_table_dim := dim
            dim_3_size := md.number_of_headings }
        smoother := { min_turning_radius := md.min_turning_radius } }

/-- One rclcpp::Parameter as seen by dynamicParametersCallback: a name and
a typed value.  Constructor other covers every parameter type the callback
does not dispatch on. -/
inductive ParamValue where
  | d (v : ℚ)
  | b (v : Bool)
  | i (v : Int)
  | s (v : String)
  | other
deriving DecidableEq, Repr

/-- A runtime parameter update. -/
structure Param where
  name : String
  value : ParamValue
deriving DecidableEq, Repr

/-- Accumulator of the parameter loop of dynamicParametersCallback: the
mutated member state plus the two local reinit flags. -/
structure DynAcc where
  s : PlannerState
  reinit_a_star : Bool
  reinit_smoother : Bool
deriving DecidableEq, Repr

/-- One iteration of the parameter loop (lines 312-371).  The result is
ok on normal fall-through and error when the body throws: the only throw
site is the lattice metadata load on a lattice_filepath update, which in
the source happens after the filepath member was already overwritten, so
the error payload carries that partially mutated state. -/
def dynStep (env : Env) (acc : DynAcc) (p : Param) : Except DynAcc DynAcc :=
  let st := acc.s
  let nm := st.name
  match p.value with
  | ParamValue.d v =>
    if p.name = nm ++ ".max_planning_time" then
      Except.ok { acc with s := { st with max_planning_time := v },
                           reinit_a_star := true }
    else if p.name = nm ++ ".lookup_table_size" then
      Except.ok { acc with s := { st with lookup_table_size := v },
                           reinit_a_star := true }
    else if p.name = nm ++ ".reverse_penalty" then
      Except.ok { acc with
        s := { st with search_info := { st.search_info with reverse_penalty := v } },
        reinit_a_star := true }
    else if p.name = nm ++ ".change_penalty" then
      Except.ok { acc with
        s := { st with search_info := { st.search_info with change_penalty := v } },
        reinit_a_star := true }
    else if p.name = nm ++ ".non_straight_penalty" then
      Except.ok { acc with
        s := { st with search_info := { st.search_info with non_straight_penalty := v } },
        reinit_a_star := true }
    else if p.name = nm ++ ".cost_penalty" then
      Except.ok { acc with
        s := { st with search_info := { st.search_info with cost_penalty := v } },
        reinit_a_star := true }
    else if p.name = nm ++ ".analytic_expansion_ratio" then
      Except.ok { acc with
        s := { st with search_info := { st.search_info with analytic_expansion_ratio_val := v } },
        reinit_a_star := true }
    else Except.ok acc
  | ParamValue.b v =>
    if p.name = nm ++ ".allow_unknown" then
      Except.ok { acc with s := { st with allow_unknown := v },
                           reinit_a_star := true }
    else if p.name = nm ++ ".cache_obstacle_heuristic" then
      Except.ok { acc with
        s := { st with search_info := { st.search_info with cache_obstacle_heuristic := v } },
        reinit_a_star := true }
    else if p.name = nm ++ ".allow_reverse_expansion" then
      Except.ok { acc with
        s := { st with search_info := { st.search_info with allow_reverse_expansion := v } },
        reinit_a_star := true }
    else Except.ok acc
  | ParamValue.i v =>
    if p.name = nm ++ ".max_iterations" then
      Except.ok { acc with
        s := { st with max_iterations := if v ≤ 0 then intMax else v },
        reinit_a_star := true }
    else Except.ok acc
  | ParamValue.s v =>
    if p.name = nm ++ ".lattice_filepath" then
      let st1 := { st with search_info := { st.search_info with lattice_filepath := v } }
      match env.load v with
      | none =>
        Except.error { acc with s := st1,
                                reinit_a_star := true, reinit_smoother := true }
      | some md =>
        Except.ok { acc with
          s := { st1 with
            metadata := md
            search_info := { st1.search_info with
              minimum_turning_radius := md.min_turning_radius / env.resolution } },
          reinit_a_star := true, reinit_smoother := true }
    else Except.ok acc
  | ParamValue.other => Except.ok acc

/-- The whole parameter loop; an error aborts the remaining updates
exactly as a thrown exception leaves the range-for. -/
def dynLoop (env : Env) : DynAcc → List Param → Except DynAcc DynAcc
  | acc, [] => Except.ok acc
  | acc, p :: ps =>
    match dynStep env acc p with
    | Except.ok acc1 => dynLoop env acc1 ps
    | Except.error acc1 => Except.error acc1

/-- SmacPlannerLattice::dynamicParametersCallback, lines 303-419.  The
second component is some true when the callback returns normally (it sets
result.successful = true unconditionally at line 417) and none when the
lattice load throws and the exception escapes the callback.  On a normal
return with a reinit flag set, the block of lines 374-415 runs: it divides
the stored minimum_turning_radius by the resolution (lines 376-378 save a
global-coordinates copy that is never read again and divide the member,
which configure had already divided by the resolution), recomputes the odd
lookup-table dimension, and rebuilds the smoother and A* snapshots. -/
def dynamicParametersCallback (env : Env) (s : PlannerState)
    (ps : List Param) : PlannerState × Option Bool :=
  match dynLoop env { s := s, reinit_a_star := false, reinit_smoother := false } ps with
  | Except.error acc => (acc.s, none)
  | Except.ok acc =>
    let st := acc.s
    if acc.reinit_a_star || acc.reinit_smoother then
      let si := { st.search_info with
        minimum_turning_radius := st.search_info.minimum_turning_radius / env.resolution }
      let dim := lookupTableDim st.lookup_table_size env.resolution
      let sm := if acc.reinit_smoother then
          { min_turning_radius := st.metadata.min_turning_radius }
        else st.smoother
      let astar := if acc.reinit_a_star then
          { motion_model := MotionModel.stateLattice
            search_info := si
            allow_unknown := st.allow_unknown
            max_iterations := st.max_iterations
            max_on_approach_iterations := intMax
            max_planning_time := st.max_planning_time
            lookup_table_dim := dim
            dim_3_size := st.metadata.number_of_headings }
        else st.a_star
      ({ st with search_info := si, smoother := sm, a_star := astar }, some true)
    else (st, some true)

/-- A path coordinate produced by the search engine
(NodeLattice::Coordinates): continuous grid coordinates plus an
orientation. -/
structure Coord where
  x : ℚ
  y : ℚ
  theta : ℚ
deriving DecidableEq, Repr

/-- A world pose as far as createPlan reads and writes it: a planar
position and a yaw. -/
structure WPose where
  px : ℚ
  py : ℚ
  yaw : ℚ
deriving DecidableEq, Repr

/-- Modelled from the spec: the outcome of one run of
AStarAlgorithm::createPath, which is not part of this repository slice.
Per the spec the engine either produces a path, or produces none because
the open set emptied, the iteration budget ran out, or the wall-clock
deadline expired; invalid use (bad start, goal, or motion model) is
signalled by a thrown std::runtime_error carrying a message, the only
exception the call site catches. -/
inductive SearchOutcome where
  | success (path : List Coord)
  | noPathFound
  | iterationsExceeded
  | timeExceeded
  | invalidUse (msg : String)
deriving DecidableEq, Repr

/-- What the call site observes from one engine run: the outcome and the
iteration count written through the out-parameter num_iterations. -/
structure EngineResult where
  outcome : SearchOutcome
  iterations : Int
deriving DecidableEq, Repr

/-- Modelled from the spec: the external collaborators of createPlan.
worldToMap and closestBin are the costmap and motion-table conversions of
lines 216-226; getWorldCoords and getWorldOrientation are the conversions
of lines 268-269; smooth is the downstream smoother pass receiving the
raw plan and the remaining time budget; engine answers one search query
(the A* snapshot plus start and goal bins), deterministically per the
spec. -/
structure PlanEnv where
  worldToMap : ℚ → ℚ → Nat × Nat
  closestBin : ℚ → Nat
  getWorldCoords : ℚ → ℚ → ℚ × ℚ
  getWorldOrientation : ℚ → ℚ
  smooth : List WPose → ℚ → List WPose
  engine : AStarConfig → Nat × Nat × Nat → Nat × Nat × Nat → EngineResult

/-- The (cell x, cell y, angular bin) triple handed to setStart and
setGoal for a world pose (lines 216-226). -/
def poseQuery (pe : PlanEnv) (p : WPose) : Nat × Nat × Nat :=
  let m := pe.worldToMap p.px p.py
  (m.1, m.2, pe.closestBin p.yaw)

/-- The engine answer for one planning call. -/
def engineAnswer (st : PlannerState) (pe : PlanEnv) (start goal : WPose) :
    EngineResult :=
  pe.engine st.a_star (poseQuery pe start) (poseQuery pe goal)

/-- The result of one planning call: the pose sequence of the returned
nav_msgs Path, plus the failure reason string the call site logs (empty
on success). -/
structure PlanResult where
  poses : List WPose
  error : String
deriving DecidableEq, Repr

/-- Conversion of the engine path to world poses (lines 266-271): the
engine path is traversed from its last element down to its first, each
coordinate converted through getWorldCoords and getWorldOrientation. -/
def rawPlan (pe : PlanEnv) (path : List Coord) : List WPose :=
  path.reverse.map fun c =>
    let w := pe.getWorldCoords c.x c.y
    { px := w.1, py := w.2, yaw := pe.getWorldOrientation c.theta }

/-- The error string computed by the try block of lines 244-255: empty on
success; for a false return, one of two strings chosen by comparing
num_iterations with the engine iteration budget; for a caught
runtime_error, a prefixed copy of its message. -/
def callSiteError (er : EngineResult) (maxIterations : Int) : String :=
  match er.outcome with
  | SearchOutcome.success _ => ""
  | SearchOutcome.invalidUse m => "invalid use: " ++ m
  | _ =>
    if er.iterations < maxIterations then "no valid path found"
    else "exceeded maximum iterations"

/-- Assembly of the plan from the engine result (lines 240-300): on any
non-empty error the still-empty plan is returned at line 262; otherwise
the path is converted to world poses and the smoother is invoked exactly
when the search took more than one iteration and the plan holds more than
six poses (line 289). -/
def assemblePlan (st : PlannerState) (pe : PlanEnv) (er : EngineResult)
    (elapsed : ℚ) : PlanResult :=
  let error := callSiteError er st.a_star.max_iterations
  if error = "" then
    match er.outcome with
    | SearchOutcome.success path =>
      let raw := rawPlan pe path
      let time_remaining := st.max_planning_time - elapsed
      if 1 < er.iterations ∧ 6 < raw.length then
        { poses := pe.smooth raw time_remaining, error := "" }
      else
        { poses := raw, error := "" }
    | _ => { poses := [], error := error }
  else { poses := [], error := error }

/-- SmacPlannerLattice::createPlan, lines 203-301.  elapsed is the
wall-clock time measured between the two steady_clock readings of
lines 208 and 279, an input of the model.  The method reads the member
state and mutates none of it. -/
def createPlan (st : PlannerState) (pe : PlanEnv) (start goal : WPose)
    (elapsed : ℚ) : PlanResult :=
  assemblePlan st pe (engineAnswer st pe start goal) elapsed

/-- One planning invocation together with the member state it leaves
behind: createPlan mutates no member of SmacPlannerLattice (the only
stateful calls, setStart, setGoal and createPath, act on engine-internal
per-search bookkeeping that the spec requires to be reset per call). -/
def createPlanRun (st : PlannerState) (pe : PlanEnv) (start goal : WPose)
    (elapsed : ℚ) : PlannerState × PlanResult :=
  (st, createPlan st pe start goal elapsed)

/-
Concrete fixtures used by witnesses and counterexamples.
-/

/-- A concrete lattice metadata value: radius one meter, sixteen
headings. -/
def mdTest : LatticeMetadata :=
  { min_turning_radius := 1, number_of_headings := 16 }

/-- A concrete environment: one well-formed lattice file named good.json,
every other path failing to load; grid resolution one half meter. -/
def envTest : Env :=
  { load := fun f => if f = "good.json" then some mdTest else none
    resolution := 1 / 2 }

/-- Concrete configure-time parameter values (the defaults of
lines 64-104, with the good lattice file). -/
def cfgTest : ConfigureParams :=
  { allow_unknown := true
    max_iterations := 1000000
    lattice_filepath := "good.json"
    cache_obstacle_heuristic := false
    reverse_penalty := 2
    change_penalty := 1 / 20
    non_straight_penalty := 21 / 20
    cost_penalty := 2
    analytic_expansion_ratio_val := 7 / 2
    max_planning_time := 5
    lookup_table_size := 20
    allow_reverse_expansion := false }

/-- The planner state produced by configuring with the concrete
fixtures. -/
def s0Test : PlannerState := (configure envTest "lat" cfgTest).getD default

/-- A plan environment with identity-like conversions and a fixed engine
answer. -/
def peWith (er : EngineResult) : PlanEnv :=
  { worldToMap := fun x y => ((ratTrunc x).toNat, (ratTrunc y).toNat)
    closestBin := fun _ => 0
    getWorldCoords := fun x y => (x, y)
    getWorldOrientation := fun th => th
    smooth := fun l _ => l ++ l
    engine := fun _ _ _ => er }

/-- A concrete world pose at the origin. -/
def w0 : WPose := { px := 0, py := 0, yaw := 0 }

/-
Auxiliary lemmas about the parameter loop.
-/

/-- The state carried by either outcome of a loop step. -/
def exOut : Except DynAcc DynAcc → DynAcc
  | Except.ok a => a
  | Except.error a => a

/-- A parameter update that hits the lattice_filepath string branch. -/
def isLatticeStringParam (nm : String) (p : Param) : Prop :=
  p.name = nm ++ ".lattice_filepath" ∧ ∃ v, p.value = ParamValue.s v

/-- A parameter whose name and type match one of the recognized options
of the callback dispatch. -/
def recognizedName (nm : String) (p : Param) : Prop :=
  match p.value with
  | ParamValue.d _ =>
    p.name = nm ++ ".max_planning_time" ∨ p.name = nm ++ ".lookup_table_size" ∨
    p.name = nm ++ ".reverse_penalty" ∨ p.name = nm ++ ".change_penalty" ∨
    p.name = nm ++ ".non_straight_penalty" ∨ p.name = nm ++ ".cost_penalty" ∨
    p.name = nm ++ ".analytic_expansion_ratio"
  | ParamValue.b _ =>
    p.name = nm ++ ".allow_unknown" ∨ p.name = nm ++ ".cache_obstacle_heuristic" ∨
    p.name = nm ++ ".allow_reverse_expansion"
  | ParamValue.i _ => p.name = nm ++ ".max_iterations"
  | ParamValue.s _ => p.name = nm ++ ".lattice_filepath"
  | ParamValue.other => False

/-- A string parameter that, if it hits the lattice branch, loads
successfully. -/
def stringParamLoadsOk (env : Env) (nm : String) (p : Param) : Prop :=
  ∀ v, p.value = ParamValue.s v → p.name = nm ++ ".lattice_filepath" →
    (env.load v).isSome

theorem dynStep_pres (env : Env) (acc : DynAcc) (p : Param) :
    (exOut (dynStep env acc p)).s.a_star = acc.s.a_star ∧
    (exOut (dynStep env acc p)).s.smoother = acc.s.smoother ∧
    (exOut (dynStep env acc p)).s.name = acc.s.name := by
  cases hv : p.value <;> simp only [dynStep, hv]
  case d v => split_ifs <;> exact ⟨rfl, rfl, rfl⟩
  case b v => split_ifs <;> exact ⟨rfl, rfl, rfl⟩
  case i v => split_ifs <;> exact ⟨rfl, rfl, rfl⟩
  case s v =>
    split_ifs
    · cases env.load v <;> exact ⟨rfl, rfl, rfl⟩
    · exact ⟨rfl, rfl, rfl⟩
  case other => exact ⟨rfl, rfl, rfl⟩

theorem dynLoop_pres (env : Env) (ps : List Param) (acc : DynAcc) :
    (exOut (dynLoop env acc ps)).s.a_star = acc.s.a_star ∧
    (exOut (dynLoop env acc ps)).s.smoother = acc.s.smoother ∧
    (exOut (dynLoop env acc ps)).s.name = acc.s.name := by
  induction ps generalizing acc with
  | nil => exact ⟨rfl, rfl, rfl⟩
  | cons p ps ih =>
    have hp := dynStep_pres env acc p
    cases hstep : dynStep env acc p with
    | ok a1 =>
      rw [hstep] at hp
      have hl := ih a1
      simp only [exOut] at hp
      refine ⟨?_, ?_, ?_⟩ <;> simp only [dynLoop, hstep]
      · exact hl.1.trans hp.1
      · exact hl.2.1.trans hp.2.1
      · exact hl.2.2.trans hp.2.2
    | error a1 =>
      rw [hstep] at hp
      simp only [exOut] at hp
      refine ⟨?_, ?_, ?_⟩ <;> simp only [dynLoop, hstep] <;> simp only [exOut]
      · exact hp.1
      · exact hp.2.1
      · exact hp.2.2

theorem dynLoop_append (env : Env) (xs ys : List Param) (acc : DynAcc) :
    dynLoop env acc (xs ++ ys) =
      match dynLoop env acc xs with
      | Except.ok a1 => dynLoop env a1 ys
      | Except.error a1 => Except.error a1 := by
  induction xs generalizing acc with
  | nil => simp [dynLoop]
  | cons p xs ih =>
    simp only [List.cons_append, dynLoop]
    cases dynStep env acc p with
    | ok a1 => exact ih a1
    | error a1 => rfl

theorem dynStep_not_lattice (env : Env) (acc : DynAcc) (p : Param)
    (h : ¬ isLatticeStringParam acc.s.name p) :
    ∃ a1, dynStep env acc p = Except.ok a1 ∧
      a1.s.metadata = acc.s.metadata ∧ a1.s.a_star = acc.s.a_star ∧
      a1.s.smoother = acc.s.smoother ∧ a1.s.name = acc.s.name := by
  cases hv : p.value <;> simp only [dynStep, hv]
  case d v => split_ifs <;> exact ⟨_, rfl, rfl, rfl, rfl, rfl⟩
  case b v => split_ifs <;> exact ⟨_, rfl, rfl, rfl, rfl, rfl⟩
  case i v => split_ifs <;> exact ⟨_, rfl, rfl, rfl, rfl, rfl⟩
  case s v =>
    have hn : ¬ p.name = acc.s.name ++ ".lattice_filepath" := by
      intro he
      exact h ⟨he, v, hv⟩
    rw [if_neg hn]
    exact ⟨_, rfl, rfl, rfl, rfl, rfl⟩
  case other => exact ⟨_, rfl, rfl, rfl, rfl, rfl⟩

theorem dynLoop_not_lattice (env : Env) (ps : List Param) (acc : DynAcc)
    (h : ∀ p ∈ ps, ¬ isLatticeStringParam acc.s.name p) :
    ∃ a1, dynLoop env acc ps = Except.ok a1 ∧
      a1.s.metadata = acc.s.metadata ∧ a1.s.a_star = acc.s.a_star ∧
      a1.s.smoother = acc.s.smoother ∧ a1.s.name = acc.s.name := by
  induction ps generalizing acc with
  | nil => exact ⟨acc, rfl, rfl, rfl, rfl, rfl⟩
  | cons p ps ih =>
    obtain ⟨a1, hstep, hm1, ha1, hs1, hn1⟩ :=
      dynStep_not_lattice env acc p (h p (by simp))
    obtain ⟨a2, hloop, hm2, ha2, hs2, hn2⟩ := ih a1 (by
      intro q hq
      rw [hn1]
      exact h q (by simp [hq]))
    refine ⟨a2, ?_, hm2.trans hm1, ha2.trans ha1, hs2.trans hs1, hn2.trans hn1⟩
    simp only [dynLoop, hstep, hloop]

theorem dynStep_unrecognized (env : Env) (acc : DynAcc) (p : Param)
    (h : ¬ recognizedName acc.s.name p) : dynStep env acc p = Except.ok acc := by
  cases hv : p.value <;> simp only [recognizedName, hv] at h <;>
    simp only [dynStep, hv]
  case d v =>
    push_neg at h
    rw [if_neg h.1, if_neg h.2.1, if_neg h.2.2.1, if_neg h.2.2.2.1,
      if_neg h.2.2.2.2.1, if_neg h.2.2.2.2.2.1, if_neg h.2.2.2.2.2.2]
  case b v =>
    push_neg at h
    rw [if_neg h.1, if_neg h.2.1, if_neg h.2.2]
  case i v => rw [if_neg h]
  case s v => rw [if_neg h]

theorem dynLoop_unrecognized (env : Env) (qs : List Param) (acc : DynAcc)
    (h : ∀ q ∈ qs, ¬ recognizedName acc.s.name q) :
    dynLoop env acc qs = Except.ok acc := by
  induction qs with
  | nil => rfl
  | cons q qs ih =>
    have hstep := dynStep_unrecognized env acc q (h q (by simp))
    simp only [dynLoop, hstep]
    exact ih (by intro r hr; exact h r (by simp [hr]))

theorem dynLoop_ok_of_loads (env : Env) (ps : List Param) (acc : DynAcc)
    (h : ∀ p ∈ ps, stringParamLoadsOk env acc.s.name p) :
    ∃ a1, dynLoop env acc ps = Except.ok a1 := by
  induction ps generalizing acc with
  | nil => exact ⟨acc, rfl⟩
  | cons p ps ih =>
    have hstep : ∃ a1, dynStep env acc p = Except.ok a1 := by
      cases hv : p.value <;> simp only [dynStep, hv]
      case d v => split_ifs <;> exact ⟨_, rfl⟩
      case b v => split_ifs <;> exact ⟨_, rfl⟩
      case i v => split_ifs <;> exact ⟨_, rfl⟩
      case s v =>
        split_ifs with hn
        · have := h p (by simp) v hv hn
          cases hl : env.load v with
          | none => rw [hl] at this; simp [Option.isSome] at this
          | some md => exact ⟨_, rfl⟩
        · exact ⟨_, rfl⟩
      case other => exact ⟨_, rfl⟩
    obtain ⟨a1, hstep⟩ := hstep
    have hname : a1.s.name = acc.s.name := by
      have := (dynStep_pres env acc p).2.2
      rw [hstep] at this
      exact this
    obtain ⟨a2, hloop⟩ := ih a1 (by
      intro q hq v hv hn
      rw [hname] at hn
      exact h q (by simp [hq]) v hv hn)
    refine ⟨a2, ?_⟩
    simp only [dynLoop, hstep, hloop]

/-
Claim theorems.
-/

/-- C1: the claim says the grid-scaled minimum turning radius supplied to
the rebuilt search engine always equals the lattice metadata radius
divided by the grid resolution, idempotently across reconfigurations.
The code violates this: at configuration the engine receives the metadata
radius divided by the resolution (here 1 / (1/2) = 2), but a
reconfiguration re-supplying the configured max_iterations value divides
the stored, already grid-scaled radius by the resolution again (the
engine receives 4), and repeating the identical reconfiguration divides
it once more (the engine receives 8), because lines 377-378 divide
_search_info.minimum_turning_radius in place and the global-coordinates
copy saved at line 376 is never restored. -/
theorem C1_turning_radius_not_idempotent :
    configure envTest "lat" cfgTest = some s0Test ∧
    mdTest.min_turning_radius / envTest.resolution = 2 ∧
    s0Test.a_star.search_info.minimum_turning_radius = 2 ∧
    (dynamicParametersCallback envTest s0Test
      [⟨s0Test.name ++ ".max_iterations",
        ParamValue.i 1000000⟩]).1.a_star.search_info.minimum_turning_radius = 4 ∧
    (dynamicParametersCallback envTest
        (dynamicParametersCallback envTest s0Test
          [⟨s0Test.name ++ ".max_iterations", ParamValue.i 1000000⟩]).1
        [⟨s0Test.name ++ ".max_iterations",
          ParamValue.i 1000000⟩]).1.a_star.search_info.minimum_turning_radius = 8 ∧
    (4 : ℚ) ≠ 2 := by
  refine ⟨rfl, by norm_num [mdTest, envTest], ?_, ?_, ?_, by norm_num⟩ <;>
    norm_num [dynamicParametersCallback, dynLoop, dynStep, s0Test, configure,
      envTest, mdTest, cfgTest]

/-- C2: the realized heuristic lookup-table dimension is odd for every
configured table size and positive resolution; when the truncated cell
count is even the realized dimension is that count plus one; and both the
initial configuration and every engine rebuild of a reconfiguration
realize exactly this dimension. -/
theorem C2_lookup_table_dim_odd
    (size res : ℚ) (hres : 0 < res)
    (env : Env) (nm : String) (p : ConfigureParams) (st : PlannerState)
    (hc : configure env nm p = some st)
    (s : PlannerState) (ps : List Param) (st2 : PlannerState) (r : Option Bool)
    (hd : dynamicParametersCallback env s ps = (st2, r)) :
    lookupTableDimInt size res % 2 = 1 ∧
    (ratTrunc (size / res) % 2 = 0 →
      lookupTableDimInt size res = ratTrunc (size / res) + 1) ∧
    st.a_star.lookup_table_dim = lookupTableDim p.lookup_table_size env.resolution ∧
    (st2.a_star = s.a_star ∨
      st2.a_star.lookup_table_dim = lookupTableDim st2.lookup_table_size env.resolution) := by
  refine ⟨?_, ?_, ?_, ?_⟩
  · unfold lookupTableDimInt
    split_ifs with h <;> omega
  · intro h
    unfold lookupTableDimInt
    rw [if_pos h]
  · unfold configure at hc
    cases hl : env.load p.lattice_filepath with
    | none => rw [hl] at hc; exact absurd hc (by simp)
    | some md =>
      rw [hl] at hc
      injection hc with hc
      subst hc
      rfl
  · unfold dynamicParametersCallback at hd
    have hpres := dynLoop_pres env ps
      { s := s, reinit_a_star := false, reinit_smoother := false }
    cases hlo : dynLoop env
        { s := s, reinit_a_star := false, reinit_smoother := false } ps with
    | error acc =>
      rw [hlo] at hd hpres
      simp only [exOut] at hpres
      injection hd with hd1 hd2
      subst hd1
      exact Or.inl hpres.1
    | ok acc =>
      rw [hlo] at hd hpres
      simp only [exOut] at hpres
      by_cases h1 : acc.reinit_a_star
      · simp only [h1, Bool.true_or, if_true] at hd
        injection hd with hd1 hd2
        subst hd1
        exact Or.inr rfl
      · by_cases h2 : acc.reinit_smoother
        · simp only [h1, h2, Bool.false_or, if_true] at hd
          injection hd with hd1 hd2
          subst hd1
          simp only [h1, if_false]
          exact Or.inl hpres.1
        · simp only [h1, h2, Bool.false_or, if_false] at hd
          injection hd with hd1 hd2
          subst hd1
          exact Or.inl hpres.1

/-- C2 witness: the fixtures realize a table size of 20 meters at
resolution one half, truncating to the even count 40 and realizing the
odd dimension 41, at configuration and across an empty reconfiguration. -/
theorem C2_lookup_table_dim_odd_witness :
    (0 : ℚ) < 1 / 2 ∧
    configure envTest "lat" cfgTest = some s0Test ∧
    dynamicParametersCallback envTest s0Test [] = (s0Test, some true) ∧
    lookupTableDimInt 20 (1 / 2) % 2 = 1 ∧
    s0Test.a_star.lookup_table_dim
      = lookupTableDim cfgTest.lookup_table_size envTest.resolution := by
  refine ⟨by norm_num, rfl, rfl, ?_, ?_⟩
  · exact (C2_lookup_table_dim_odd 20 (1 / 2) (by norm_num) envTest "lat" cfgTest
      s0Test rfl s0Test [] s0Test (some true) rfl).1
  · exact (C2_lookup_table_dim_odd 20 (1 / 2) (by norm_num) envTest "lat" cfgTest
      s0Test rfl s0Test [] s0Test (some true) rfl).2.2.1

/-- C4: a non-positive configured max_iterations is normalized to the
unbounded sentinel intMax, at initial configuration and at a runtime
update, with the runtime update reporting success rather than an
error. -/
theorem C4_nonpositive_budget_sentinel
    (env : Env) (nm : String) (p : ConfigureParams) (st : PlannerState)
    (hc : configure env nm p = some st) (hp : p.max_iterations ≤ 0)
    (s : PlannerState) (v : Int) (hv : v ≤ 0) :
    st.max_iterations = intMax ∧ st.a_star.max_iterations = intMax ∧
    (dynamicParametersCallback env s
      [⟨s.name ++ ".max_iterations", ParamValue.i v⟩]).2 = some true ∧
    (dynamicParametersCallback env s
      [⟨s.name ++ ".max_iterations", ParamValue.i v⟩]).1.max_iterations = intMax ∧
    (dynamicParametersCallback env s
      [⟨s.name ++ ".max_iterations", ParamValue.i v⟩]).1.a_star.max_iterations
      = intMax := by
  have hconf : st.max_iterations = intMax ∧ st.a_star.max_iterations = intMax := by
    unfold configure at hc
    cases hl : env.load p.lattice_filepath with
    | none => rw [hl] at hc; exact absurd hc (by simp)
    | some md =>
      rw [hl] at hc
      injection hc with hc
      subst hc
      constructor <;> simp [if_pos hp]
  have hdyn : dynamicParametersCallback env s
      [⟨s.name ++ ".max_iterations", ParamValue.i v⟩] =
      (fun st2 => (st2, some true))
        (let st1 : PlannerState := { s with max_iterations := intMax }
         { st1 with
           search_info := { st1.search_info with
             minimum_turning_radius :=
               st1.search_info.minimum_turning_radius / env.resolution }
           smoother := st1.smoother
           a_star :=
             { motion_model := MotionModel.stateLattice
               search_info := { st1.search_info with
                 minimum_turning_radius :=
                   st1.search_info.minimum_turning_radius / env.resolution }
               allow_unknown := st1.allow_unknown
               max_iterations := intMax
               max_on_approach_iterations := intMax
               max_planning_time := st1.max_planning_time
               lookup_table_dim := lookupTableDim st1.lookup_table_size env.resolution
               dim_3_size := st1.metadata.number_of_headings } }) := by
    simp only [dynamicParametersCallback, dynLoop, dynStep, if_pos rfl, if_pos hv]
    rfl
  rw [hdyn]
  exact ⟨hconf.1, hconf.2, rfl, rfl, rfl⟩

/-- C4 witness: configuring with budget zero and updating to minus five
both land on the sentinel. -/
theorem C4_nonpositive_budget_sentinel_witness :
    configure envTest "lat" { cfgTest with max_iterations := 0 }
      = some ((configure envTest "lat" { cfgTest with max_iterations := 0 }).getD default) ∧
    (0 : Int) ≤ 0 ∧ (-5 : Int) ≤ 0 ∧
    ((configure envTest "lat" { cfgTest with max_iterations := 0 }).getD default).max_iterations
      = intMax ∧
    (dynamicParametersCallback envTest s0Test
      [⟨s0Test.name ++ ".max_iterations", ParamValue.i (-5)⟩]).1.a_star.max_iterations
      = intMax := by
  refine ⟨rfl, le_refl 0, by norm_num, ?_, ?_⟩
  · exact (C4_nonpositive_budget_sentinel envTest "lat"
      { cfgTest with max_iterations := 0 } _ rfl (le_refl 0) s0Test (-5)
      (by norm_num)).1
  · exact (C4_nonpositive_budget_sentinel envTest "lat"
      { cfgTest with max_iterations := 0 } _ rfl (le_refl 0) s0Test (-5)
      (by norm_num)).2.2.2.2

/-- C3: at the call site, a deadline-expiry failure (which per the spec
occurs with the iteration count still below the budget) is reported as
the string for a path-less search, while iteration exhaustion is reported
as the exceeded-iterations string, and the two reported reasons are
distinct. -/
theorem C3_time_vs_iterations_distinct
    (st : PlannerState) (pe1 pe2 : PlanEnv) (start goal : WPose) (e1 e2 : ℚ)
    (h1 : (engineAnswer st pe1 start goal).outcome = SearchOutcome.timeExceeded)
    (h2 : (engineAnswer st pe1 start goal).iterations < st.a_star.max_iterations)
    (h3 : (engineAnswer st pe2 start goal).outcome = SearchOutcome.iterationsExceeded)
    (h4 : st.a_star.max_iterations ≤ (engineAnswer st pe2 start goal).iterations) :
    (createPlan st pe1 start goal e1).error = "no valid path found" ∧
    (createPlan st pe2 start goal e2).error = "exceeded maximum iterations" ∧
    (createPlan st pe1 start goal e1).error
      ≠ (createPlan st pe2 start goal e2).error := by
  have ha : (createPlan st pe1 start goal e1).error = "no valid path found" := by
    simp only [createPlan]
    rcases her : engineAnswer st pe1 start goal with ⟨o, i⟩
    rw [her] at h1 h2
    dsimp only at h1 h2
    subst h1
    simp [assemblePlan, callSiteError, h2]
  have hb : (createPlan st pe2 start goal e2).error
      = "exceeded maximum iterations" := by
    simp only [createPlan]
    rcases her : engineAnswer st pe2 start goal with ⟨o, i⟩
    rw [her] at h3 h4
    dsimp only at h3 h4
    subst h3
    simp [assemblePlan, callSiteError, not_lt.mpr h4]
  refine ⟨ha, hb, ?_⟩
  rw [ha, hb]
  decide

/-- C3 witness: with the engine reporting deadline expiry after five
iterations under the configured budget of one million, and iteration
exhaustion at one million iterations, the two call-site reasons
differ. -/
theorem C3_time_vs_iterations_distinct_witness :
    (engineAnswer s0Test (peWith ⟨SearchOutcome.timeExceeded, 5⟩) w0 w0).outcome
      = SearchOutcome.timeExceeded ∧
    (engineAnswer s0Test (peWith ⟨SearchOutcome.timeExceeded, 5⟩) w0 w0).iterations
      < s0Test.a_star.max_iterations ∧
    (engineAnswer s0Test
      (peWith ⟨SearchOutcome.iterationsExceeded, 1000000⟩) w0 w0).outcome
      = SearchOutcome.iterationsExceeded ∧
    s0Test.a_star.max_iterations ≤ (engineAnswer s0Test
      (peWith ⟨SearchOutcome.iterationsExceeded, 1000000⟩) w0 w0).iterations ∧
    (createPlan s0Test (peWith ⟨SearchOutcome.timeExceeded, 5⟩) w0 w0 1).error
      ≠ (createPlan s0Test
          (peWith ⟨SearchOutcome.iterationsExceeded, 1000000⟩) w0 w0 1).error := by
  have hlt : (engineAnswer s0Test
      (peWith ⟨SearchOutcome.timeExceeded, 5⟩) w0 w0).iterations
      < s0Test.a_star.max_iterations := by
    norm_num [engineAnswer, peWith, poseQuery, s0Test, configure, envTest,
      mdTest, cfgTest]
  have hge : s0Test.a_star.max_iterations ≤ (engineAnswer s0Test
      (peWith ⟨SearchOutcome.iterationsExceeded, 1000000⟩) w0 w0).iterations := by
    norm_num [engineAnswer, peWith, poseQuery, s0Test, configure, envTest,
      mdTest, cfgTest]
  exact ⟨rfl, hlt, rfl, hge,
    (C3_time_vs_iterations_distinct s0Test
      (peWith ⟨SearchOutcome.timeExceeded, 5⟩)
      (peWith ⟨SearchOutcome.iterationsExceeded, 1000000⟩)
      w0 w0 1 1 rfl hlt rfl hge).2.2⟩

/-- C5: when the engine produces no path, for any of the three failure
outcomes or a thrown runtime error, the planning call returns the empty
pose sequence together with a non-empty failure reason. -/
theorem C5_failure_empty_and_reported
    (st : PlannerState) (pe : PlanEnv) (start goal : WPose) (elapsed : ℚ)
    (h : ∀ path, (engineAnswer st pe start goal).outcome
      ≠ SearchOutcome.success path) :
    (createPlan st pe start goal elapsed).poses = [] ∧
    (createPlan st pe start goal elapsed).error ≠ "" := by
  simp only [createPlan]
  rcases her : engineAnswer st pe start goal with ⟨o, i⟩
  rw [her] at h
  cases o with
  | success path => exact absurd rfl (h path)
  | noPathFound =>
    by_cases hi : i < st.a_star.max_iterations <;>
      simp [assemblePlan, callSiteError, hi]
  | iterationsExceeded =>
    by_cases hi : i < st.a_star.max_iterations <;>
      simp [assemblePlan, callSiteError, hi]
  | timeExceeded =>
    by_cases hi : i < st.a_star.max_iterations <;>
      simp [assemblePlan, callSiteError, hi]
  | invalidUse m =>
    have hne : ("invalid use: " ++ m) ≠ "" := by
      intro hF
      have hlen := congrArg String.length hF
      rw [String.length_append] at hlen
      have h13 : ("invalid use: ").length = 13 := rfl
      have h0 : ("" : String).length = 0 := rfl
      rw [h13, h0] at hlen
      omega
    simp [assemblePlan, callSiteError, hne]

/-- C5 witness: an open-set-exhausted engine answer yields the empty pose
list and the reported reason. -/
theorem C5_failure_empty_and_reported_witness :
    (∀ path, (engineAnswer s0Test (peWith ⟨SearchOutcome.noPathFound, 0⟩)
        w0 w0).outcome ≠ SearchOutcome.success path) ∧
    (createPlan s0Test (peWith ⟨SearchOutcome.noPathFound, 0⟩) w0 w0 1).poses
      = [] ∧
    (createPlan s0Test (peWith ⟨SearchOutcome.noPathFound, 0⟩) w0 w0 1).error
      ≠ "" := by
  have hno : ∀ path, (engineAnswer s0Test
      (peWith ⟨SearchOutcome.noPathFound, 0⟩) w0 w0).outcome
      ≠ SearchOutcome.success path := by
    intro path hF
    simp [engineAnswer, peWith] at hF
  exact ⟨hno,
    (C5_failure_empty_and_reported s0Test (peWith ⟨SearchOutcome.noPathFound, 0⟩)
      w0 w0 1 hno).1,
    (C5_failure_empty_and_reported s0Test (peWith ⟨SearchOutcome.noPathFound, 0⟩)
      w0 w0 1 hno).2⟩

/-- C7: a repeated planning invocation with the identical grid and
conversion environment, identical configuration state, identical
endpoints and identical elapsed-clock observation returns the identical
pose sequence; the first invocation leaves the member state unchanged, so
the second runs on exactly the state the first ran on. -/
theorem C7_repeat_invocation_deterministic
    (st : PlannerState) (pe : PlanEnv) (start goal : WPose) (elapsed : ℚ) :
    (createPlanRun (createPlanRun st pe start goal elapsed).1
        pe start goal elapsed).2.poses
      = (createPlanRun st pe start goal elapsed).2.poses ∧
    (createPlanRun st pe start goal elapsed).1 = st := ⟨rfl, rfl⟩

/-- C9: on a successful search, the smoother is invoked on the raw plan
exactly when the search took more than one iteration and the raw plan
holds more than six poses; otherwise the raw plan is returned
unchanged. -/
theorem C9_smoothing_gate
    (st : PlannerState) (pe : PlanEnv) (start goal : WPose) (elapsed : ℚ)
    (path : List Coord)
    (hs : (engineAnswer st pe start goal).outcome
      = SearchOutcome.success path) :
    ((1 < (engineAnswer st pe start goal).iterations
        ∧ 6 < (rawPlan pe path).length) →
      (createPlan st pe start goal elapsed).poses
        = pe.smooth (rawPlan pe path) (st.max_planning_time - elapsed)) ∧
    (¬(1 < (engineAnswer st pe start goal).iterations
        ∧ 6 < (rawPlan pe path).length) →
      (createPlan st pe start goal elapsed).poses = rawPlan pe path) := by
  simp only [createPlan]
  rcases her : engineAnswer st pe start goal with ⟨o, i⟩
  rw [her] at hs
  dsimp only at hs ⊢
  subst hs
  by_cases hcond : 1 < i ∧ 6 < (rawPlan pe path).length
  · refine ⟨fun _ => ?_, fun hF => absurd hcond hF⟩
    simp [assemblePlan, callSiteError, hcond]
  · refine ⟨fun hT => absurd hT hcond, fun _ => ?_⟩
    simp [assemblePlan, callSiteError, hcond]

/-- C9 witness: a one-iteration success with an empty path takes the
unsmoothed branch. -/
theorem C9_smoothing_gate_witness :
    (engineAnswer s0Test (peWith ⟨SearchOutcome.success [], 1⟩) w0 w0).outcome
      = SearchOutcome.success [] ∧
    (¬(1 < (engineAnswer s0Test
          (peWith ⟨SearchOutcome.success [], 1⟩) w0 w0).iterations
        ∧ 6 < (rawPlan (peWith ⟨SearchOutcome.success [], 1⟩) []).length) →
      (createPlan s0Test (peWith ⟨SearchOutcome.success [], 1⟩) w0 w0 1).poses
        = rawPlan (peWith ⟨SearchOutcome.success [], 1⟩) []) := by
  exact ⟨rfl,
    (C9_smoothing_gate s0Test (peWith ⟨SearchOutcome.success [], 1⟩)
      w0 w0 1 [] rfl).2⟩

/-- C6 counterexample: the claim says a failing lattice-file
reconfiguration leaves the configured file path in effect, but the source
overwrites _search_info.lattice_filepath at line 365 before attempting the
load at line 366: after a reconfiguration to the unloadable bad.json, the
stored file path is bad.json, not the previously working good.json. -/
theorem C6_counterexample :
    configure envTest "lat" cfgTest = some s0Test ∧
    s0Test.search_info.lattice_filepath = "good.json" ∧
    envTest.load "bad.json" = none ∧
    (dynamicParametersCallback envTest s0Test
      [⟨s0Test.name ++ ".lattice_filepath",
        ParamValue.s "bad.json"⟩]).1.search_info.lattice_filepath = "bad.json" ∧
    ("bad.json" : String) ≠ "good.json" := by
  have hgood : envTest.load "good.json" = some mdTest := by decide
  have hload : envTest.load "bad.json" = none := by decide
  refine ⟨rfl, rfl, hload, ?_, by decide⟩
  norm_num [dynamicParametersCallback, dynLoop, dynStep, s0Test, configure,
    mdTest, cfgTest, hgood, hload]

/-- C6 amended: a reconfiguration whose lattice-file load fails aborts
before any rebuild (the callback produces no result), leaving the
previously working search engine, smoother and lattice metadata in
effect; however the configured lattice file path is already overwritten
with the failing path, and parameter updates processed earlier in the
same request also persist. -/
theorem C6_amended_load_failure_keeps_engine
    (env : Env) (s : PlannerState) (ps1 ps2 : List Param) (bad : String)
    (h1 : ∀ p ∈ ps1, ¬ isLatticeStringParam s.name p)
    (h2 : env.load bad = none) :
    (dynamicParametersCallback env s
      (ps1 ++ ⟨s.name ++ ".lattice_filepath", ParamValue.s bad⟩ :: ps2)).2
      = none ∧
    (dynamicParametersCallback env s
      (ps1 ++ ⟨s.name ++ ".lattice_filepath", ParamValue.s bad⟩ :: ps2)).1.a_star
      = s.a_star ∧
    (dynamicParametersCallback env s
      (ps1 ++ ⟨s.name ++ ".lattice_filepath", ParamValue.s bad⟩ :: ps2)).1.smoother
      = s.smoother ∧
    (dynamicParametersCallback env s
      (ps1 ++ ⟨s.name ++ ".lattice_filepath", ParamValue.s bad⟩ :: ps2)).1.metadata
      = s.metadata ∧
    (dynamicParametersCallback env s
      (ps1 ++ ⟨s.name ++ ".lattice_filepath",
        ParamValue.s bad⟩ :: ps2)).1.search_info.lattice_filepath = bad := by
  obtain ⟨a1, hloop1, hm1, ha1, hs1, hn1⟩ := dynLoop_not_lattice env ps1
    { s := s, reinit_a_star := false, reinit_smoother := false } h1
  have hstep : dynStep env a1
      ⟨s.name ++ ".lattice_filepath", ParamValue.s bad⟩ =
      Except.error { a1 with
        s := { a1.s with search_info :=
          { a1.s.search_info with lattice_filepath := bad } },
        reinit_a_star := true, reinit_smoother := true } := by
    simp [dynStep, hn1, h2]
  have hloop : dynLoop env
      { s := s, reinit_a_star := false, reinit_smoother := false }
      (ps1 ++ ⟨s.name ++ ".lattice_filepath", ParamValue.s bad⟩ :: ps2) =
      Except.error { a1 with
        s := { a1.s with search_info :=
          { a1.s.search_info with lattice_filepath := bad } },
        reinit_a_star := true, reinit_smoother := true } := by
    rw [dynLoop_append, hloop1]
    simp only [dynLoop, hstep]
  have hdyn : dynamicParametersCallback env s
      (ps1 ++ ⟨s.name ++ ".lattice_filepath", ParamValue.s bad⟩ :: ps2)
      = ({ a1.s with search_info :=
          { a1.s.search_info with lattice_filepath := bad } }, none) := by
    unfold dynamicParametersCallback
    rw [hloop]
  dsimp only at ha1 hs1 hm1
  rw [hdyn]
  exact ⟨rfl, ha1, hs1, hm1, rfl⟩

/-- C6 witness: the amended statement at the concrete fixtures, with no
other updates in the failing request. -/
theorem C6_amended_load_failure_keeps_engine_witness :
    (∀ p ∈ ([] : List Param), ¬ isLatticeStringParam s0Test.name p) ∧
    envTest.load "bad.json" = none ∧
    (dynamicParametersCallback envTest s0Test
      ([] ++ ⟨s0Test.name ++ ".lattice_filepath",
        ParamValue.s "bad.json"⟩ :: [])).2 = none ∧
    (dynamicParametersCallback envTest s0Test
      ([] ++ ⟨s0Test.name ++ ".lattice_filepath",
        ParamValue.s "bad.json"⟩ :: [])).1.a_star = s0Test.a_star := by
  have hnil : ∀ p ∈ ([] : List Param), ¬ isLatticeStringParam s0Test.name p := by
    intro p hp
    cases hp
  have hbad : envTest.load "bad.json" = none := by decide
  exact ⟨hnil, hbad,
    (C6_amended_load_failure_keeps_engine envTest s0Test [] [] "bad.json"
      hnil hbad).1,
    (C6_amended_load_failure_keeps_engine envTest s0Test [] [] "bad.json"
      hnil hbad).2.1⟩

/-- C10 counterexample: the claim says the callback reports success for
every list of parameter updates, but a lattice-filepath update whose load
fails makes the callback abort with no result at all (the load error
escapes before result.successful is ever set). -/
theorem C10_counterexample :
    (dynamicParametersCallback envTest s0Test
      [⟨s0Test.name ++ ".lattice_filepath", ParamValue.s "bad.json"⟩]).2
      = none ∧
    (none : Option Bool) ≠ some true := by
  have hgood : envTest.load "good.json" = some mdTest := by decide
  have hload : envTest.load "bad.json" = none := by decide
  refine ⟨?_, by decide⟩
  norm_num [dynamicParametersCallback, dynLoop, dynStep, s0Test, configure,
    mdTest, cfgTest, hgood, hload]

/-- C10 amended: the callback reports success for every list of parameter
updates whose lattice-filepath loads, if any, all succeed; and a request
made only of parameters whose name or type matches no recognized option
returns with success and every configuration field unchanged. -/
theorem C10_amended_success_and_unmatched
    (env : Env) (s : PlannerState) (ps : List Param)
    (h : ∀ p ∈ ps, stringParamLoadsOk env s.name p)
    (s2 : PlannerState) (qs : List Param)
    (h2 : ∀ q ∈ qs, ¬ recognizedName s2.name q) :
    (dynamicParametersCallback env s ps).2 = some true ∧
    dynamicParametersCallback env s2 qs = (s2, some true) := by
  constructor
  · obtain ⟨a1, hloop⟩ := dynLoop_ok_of_loads env ps
      { s := s, reinit_a_star := false, reinit_smoother := false } h
    simp only [dynamicParametersCallback, hloop]
    split <;> rfl
  · have hloop := dynLoop_unrecognized env qs
      { s := s2, reinit_a_star := false, reinit_smoother := false } h2
    unfold dynamicParametersCallback
    rw [hloop]
    rfl

/-- C10 amended witness: a successful lattice reload reports success, and
a parameter of unhandled type changes nothing. -/
theorem C10_amended_success_and_unmatched_witness :
    (∀ p ∈ [(⟨s0Test.name ++ ".lattice_filepath",
        ParamValue.s "good.json"⟩ : Param)],
      stringParamLoadsOk envTest s0Test.name p) ∧
    (∀ q ∈ [(⟨"lat.max_iterations", ParamValue.other⟩ : Param)],
      ¬ recognizedName s0Test.name q) ∧
    (dynamicParametersCallback envTest s0Test
      [⟨s0Test.name ++ ".lattice_filepath", ParamValue.s "good.json"⟩]).2
      = some true ∧
    dynamicParametersCallback envTest s0Test
      [⟨"lat.max_iterations", ParamValue.other⟩] = (s0Test, some true) := by
  have hgood : ∀ p ∈ [(⟨s0Test.name ++ ".lattice_filepath",
      ParamValue.s "good.json"⟩ : Param)],
      stringParamLoadsOk envTest s0Test.name p := by
    intro p hp v hv hn
    simp only [List.mem_singleton] at hp
    subst hp
    cases hv
    decide
  have hother : ∀ q ∈ [(⟨"lat.max_iterations", ParamValue.other⟩ : Param)],
      ¬ recognizedName s0Test.name q := by
    intro q hq
    simp only [List.mem_singleton] at hq
    subst hq
    exact fun hF => hF
  exact ⟨hgood, hother,
    (C10_amended_success_and_unmatched envTest s0Test _ hgood s0Test _ hother).1,
    (C10_amended_success_and_unmatched envTest s0Test _ hgood s0Test _ hother).2⟩

end SmacLattice
